import Mathlib

/-! Shallow embedding of the airline reservation system's seat-inventory and
reservation operations (`database.py`, with the table layout and constraints of
`setup_database.py`).  Rows are Lean structures, tables are lists, and each
`Database` method mentioned by the claims becomes a pure state-passing
function.  MySQL's FOREIGN KEY and UNIQUE checks performed at INSERT time are
modelled inside the insert helpers: `execute_update` catches the resulting
error, rolls back and returns `None`, which we model as a `none` result with
the state unchanged.  The randomness consumed by `random.choices` in
`generate_booking_reference` is an explicit stream `Nat → Fin 36` of character
draws, and the `while True` loop is embedded as a fuel-indexed unrolling
(`none` meaning the loop has not returned within the given number of
iterations). -/

namespace AirlineDB

inductive FlightStatus
  | scheduled
  | boarding
  | departed
  | arrived
  | cancelled
  | delayed
deriving DecidableEq

inductive SeatClass
  | business
  | economy
deriving DecidableEq

inductive ResStatus
  | confirmed
  | cancelled
  | checked_in
  | completed
deriving DecidableEq

inductive PayStatus
  | pending
  | paid
  | refunded
deriving DecidableEq

structure Airport where
  airport_id : Nat
  airport_code : String
  city : String
deriving DecidableEq

structure Flight where
  flight_id : Nat
  flight_number : String
  aircraft_id : Nat
  origin_airport_id : Nat
  destination_airport_id : Nat
  departure_time : Nat
  arrival_time : Nat
  base_price : Int
  status : FlightStatus
deriving DecidableEq

structure Passenger where
  passenger_id : Nat
  first_name : String
  last_name : String
  email : String
  phone : String
  date_of_birth : String
  passport_number : String
  nationality : String
deriving DecidableEq

structure Seat where
  seat_id : Nat
  aircraft_id : Nat
  seat_number : String
  seat_class : SeatClass
deriving DecidableEq

structure Reservation where
  reservation_id : Nat
  passenger_id : Nat
  flight_id : Nat
  seat_id : Option Nat
  booking_reference : String
  ticket_price : Int
  status : ResStatus
  payment_status : PayStatus
deriving DecidableEq

/-- The database state: one list per table, plus the AUTO_INCREMENT counters
for the two tables this development inserts into.  MySQL AUTO_INCREMENT ids
start at 1, so concrete states below keep the counters at 1 or above. -/
structure DBState where
  airports : List Airport
  flights : List Flight
  passengers : List Passenger
  seats : List Seat
  reservations : List Reservation
  next_passenger_id : Nat
  next_reservation_id : Nat
deriving DecidableEq

/-- Alphabet `string.ascii_uppercase + string.digits` that
`generate_booking_reference` draws from. -/
def refAlphabet : List Char := "ABCDEFGHIJKLMNOPQRSTUVWXYZ0123456789".data

/-- One character draw from the alphabet. -/
def alphaChar (i : Fin 36) : Char := refAlphabet.getD i.val 'A'

/-- The n-th candidate reference produced by the loop body
`''.join(random.choices(alphabet, k=8))`: eight consecutive draws from the
stream. -/
def candidate (σ : Nat → Fin 36) (n : Nat) : String :=
  ⟨(List.range 8).map fun j => alphaChar (σ (8 * n + j))⟩

/-- Check `SELECT booking_reference FROM Reservations WHERE booking_reference
= ref` returns at least one row. -/
def hasReference (db : DBState) (ref : String) : Bool :=
  db.reservations.any fun r => decide (r.booking_reference = ref)

/-- Fuel-indexed unrolling of the `while True` loop of
`generate_booking_reference`, about to draw candidate number `n`.  `none`
means the loop has not produced a result within `fuel` iterations — the
Python loop itself has no bound and no failure outcome. -/
def genRefAux (db : DBState) (σ : Nat → Fin 36) : Nat → Nat → Option String
  | 0, _ => none
  | fuel + 1, n =>
    let ref := candidate σ n
    if hasReference db ref then genRefAux db σ fuel (n + 1) else some ref

/-- Database.generate_booking_reference, starting from the first draw. -/
def generate_booking_reference (db : DBState) (σ : Nat → Fin 36) (fuel : Nat) :
    Option String :=
  genRefAux db σ fuel 0

def passengerExists (db : DBState) (pid : Nat) : Bool :=
  db.passengers.any fun p => decide (p.passenger_id = pid)

def flightExists (db : DBState) (fid : Nat) : Bool :=
  db.flights.any fun f => decide (f.flight_id = fid)

def seatExists (db : DBState) (sid : Nat) : Bool :=
  db.seats.any fun s => decide (s.seat_id = sid)

/-- The seat_id column is nullable; its FOREIGN KEY is only checked on
non-NULL values. -/
def seatFkOk (db : DBState) : Option Nat → Bool
  | none => true
  | some sid => seatExists db sid

/-- The row that `create_reservation`'s INSERT adds: status 'confirmed' and
payment_status 'paid' are literals in the SQL. -/
def bookedRow (db : DBState) (pid fid : Nat) (sid : Option Nat) (ref : String)
    (price : Int) : Reservation :=
  { reservation_id := db.next_reservation_id
    passenger_id := pid
    flight_id := fid
    seat_id := sid
    booking_reference := ref
    ticket_price := price
    status := ResStatus.confirmed
    payment_status := PayStatus.paid }

/-- INSERT INTO Reservations, modelling the DDL's FOREIGN KEY checks and the
UNIQUE constraint on booking_reference; there is no constraint over
(flight_id, seat_id).  On a constraint violation `execute_update` rolls back
and returns `None`; on success it returns `cursor.lastrowid`. -/
def insertReservation (db : DBState) (pid fid : Nat) (sid : Option Nat)
    (ref : String) (price : Int) : Option (Nat × DBState) :=
  if passengerExists db pid && flightExists db fid && seatFkOk db sid
      && !hasReference db ref then
    some (db.next_reservation_id,
      { db with
          reservations := db.reservations ++ [bookedRow db pid fid sid ref price]
          next_reservation_id := db.next_reservation_id + 1 })
  else none

/-- Database.create_reservation.  The outer `none` means the reference loop
has not terminated within the given fuel, so no outcome is observable.  The
inner `Option String` is the Python return value: the booking reference on
success, `None` when the INSERT failed (AUTO_INCREMENT row ids are never 0,
so `booking_ref if reservation_id else None` returns the reference exactly
when the insert succeeded). -/
def create_reservation (db : DBState) (σ : Nat → Fin 36) (fuel : Nat)
    (pid fid : Nat) (sid : Option Nat) (price : Int) :
    Option (Option String × DBState) :=
  match generate_booking_reference db σ fuel with
  | none => none
  | some ref =>
    match insertReservation db pid fid sid ref price with
    | none => some (none, db)
    | some (_, db1) => some (some ref, db1)

/-- Database.get_available_seats: seats of the flight's aircraft that do not
appear in `SELECT seat_id FROM Reservations WHERE flight_id = fid AND status
= 'confirmed' AND seat_id IS NOT NULL`.  The SQL's ORDER BY is dropped; the
claims are about membership. -/
def get_available_seats (db : DBState) (fid : Nat) : List Seat :=
  db.seats.filter fun s =>
    (db.flights.any fun f => decide (f.flight_id = fid ∧ s.aircraft_id = f.aircraft_id))
    && !(db.reservations.any fun r =>
        decide (r.flight_id = fid ∧ r.status = ResStatus.confirmed ∧
          r.seat_id = some s.seat_id))

/-- Database.cancel_reservation: `UPDATE Reservations SET status='cancelled',
payment_status='refunded' WHERE booking_reference = ref`.  The Python method
returns nothing and raises nothing, so the embedding is a total state
transformer. -/
def cancel_reservation (db : DBState) (ref : String) : DBState :=
  { db with
      reservations := db.reservations.map fun r =>
        if r.booking_reference = ref then
          { r with status := ResStatus.cancelled, payment_status := PayStatus.refunded }
        else r }

/-- One row of the SELECT in get_reservation_by_reference after its joins. -/
structure JoinedReservation where
  reservation : Reservation
  passenger : Passenger
  flight : Flight
  origin : Airport
  destination : Airport
  seat : Option Seat
deriving DecidableEq

/-- Join one Reservations row as in get_reservation_by_reference's SELECT:
the INNER JOINs drop the row when the referenced passenger, flight or airport
is missing; the LEFT JOIN on Seats never drops it. -/
def joinRow (db : DBState) (r : Reservation) : Option JoinedReservation :=
  match db.passengers.find? fun p => decide (p.passenger_id = r.passenger_id) with
  | none => none
  | some p =>
    match db.flights.find? fun f => decide (f.flight_id = r.flight_id) with
    | none => none
    | some f =>
      match db.airports.find? fun a => decide (a.airport_id = f.origin_airport_id) with
      | none => none
      | some o =>
        match db.airports.find? fun a =>
            decide (a.airport_id = f.destination_airport_id) with
        | none => none
        | some d =>
          some { reservation := r, passenger := p, flight := f, origin := o,
                 destination := d,
                 seat := r.seat_id.bind fun sid =>
                   db.seats.find? fun s => decide (s.seat_id = sid) }

/-- Database.get_reservation_by_reference: the joined rows carrying the given
reference, then `result[0] if result else None`. -/
def get_reservation_by_reference (db : DBState) (ref : String) :
    Option JoinedReservation :=
  ((db.reservations.filter fun r => decide (r.booking_reference = ref)).filterMap
    (joinRow db)).head?

def passportTaken (db : DBState) (passport : String) : Bool :=
  db.passengers.any fun p => decide (p.passport_number = passport)

/-- Database.create_passenger: if a Passengers row with the given email
exists, return its passenger_id and leave the store untouched (none of the
other arguments are read on that path); otherwise INSERT, modelling the
UNIQUE constraint on passport_number (on violation `execute_update` rolls
back and returns `None`). -/
def create_passenger (db : DBState)
    (first_name last_name email phone dob passport natl : String) :
    Option Nat × DBState :=
  match db.passengers.find? fun p => decide (p.email = email) with
  | some p => (some p.passenger_id, db)
  | none =>
    if passportTaken db passport then (none, db)
    else
      (some db.next_passenger_id,
       { db with
           passengers := db.passengers ++
             [{ passenger_id := db.next_passenger_id
                first_name := first_name
                last_name := last_name
                email := email
                phone := phone
                date_of_birth := dob
                passport_number := passport
                nationality := natl }]
           next_passenger_id := db.next_passenger_id + 1 })

/-- Live statuses per the spec's glossary: those that occupy a seat. -/
def liveStatus : ResStatus → Bool
  | ResStatus.confirmed => true
  | ResStatus.cancelled => false
  | ResStatus.checked_in => true
  | ResStatus.completed => true

/-- The live reservations referencing a given (flight, seat) pair. -/
def liveOn (db : DBState) (fid sid : Nat) : List Reservation :=
  db.reservations.filter fun r =>
    decide (r.flight_id = fid ∧ r.seat_id = some sid) && liveStatus r.status

/-- A seat is held for a flight when some live reservation references the
pair. -/
def seatHeld (db : DBState) (fid sid : Nat) : Bool :=
  !(liveOn db fid sid).isEmpty

/-- Concrete scenario rows used by the counterexamples and witnesses below,
following the sample data of `setup_database.py`. -/
def airport1 : Airport := { airport_id := 1, airport_code := "JFK", city := "New York" }

def airport2 : Airport := { airport_id := 2, airport_code := "LAX", city := "Los Angeles" }

def flight1 : Flight :=
  { flight_id := 1, flight_number := "AA101", aircraft_id := 1,
    origin_airport_id := 1, destination_airport_id := 2,
    departure_time := 100, arrival_time := 200, base_price := 350,
    status := FlightStatus.scheduled }

def passenger1 : Passenger :=
  { passenger_id := 1, first_name := "John", last_name := "Doe",
    email := "john.doe@email.com", phone := "555", date_of_birth := "1985-05-15",
    passport_number := "P12345678", nationality := "USA" }

def seat1 : Seat :=
  { seat_id := 1, aircraft_id := 1, seat_number := "1A", seat_class := SeatClass.business }

def seat2 : Seat :=
  { seat_id := 2, aircraft_id := 1, seat_number := "1B", seat_class := SeatClass.economy }

/-- A state with one scheduled flight, one passenger, two seats and no
reservations. -/
def dbBase : DBState :=
  { airports := [airport1, airport2], flights := [flight1],
    passengers := [passenger1], seats := [seat1, seat2], reservations := [],
    next_passenger_id := 2, next_reservation_id := 1 }

/-- A confirmed, paid reservation holding seat 1 on flight 1. -/
def resConfirmed : Reservation :=
  { reservation_id := 1, passenger_id := 1, flight_id := 1, seat_id := some 1,
    booking_reference := "AAAAAAAA", ticket_price := 350,
    status := ResStatus.confirmed, payment_status := PayStatus.paid }

/-- dbBase with seat 1 of flight 1 held by a confirmed reservation. -/
def dbHeld : DBState :=
  { dbBase with reservations := [resConfirmed], next_reservation_id := 2 }

/-- A draw stream that always picks the letter B, so every candidate is
"BBBBBBBB". -/
def σB : Nat → Fin 36 := fun _ => ⟨1, by omega⟩

/-- A draw stream whose first 200 draws pick A and later draws pick B: the
first 25 candidate references are "AAAAAAAA" and candidate 25 is
"BBBBBBBB". -/
def σlate : Nat → Fin 36 := fun k => if k < 200 then ⟨0, by omega⟩ else ⟨1, by omega⟩

/-- The per-row effect of cancel_reservation's UPDATE. -/
def cancelRow (ref : String) (r : Reservation) : Reservation :=
  if r.booking_reference = ref then
    { r with status := ResStatus.cancelled, payment_status := PayStatus.refunded }
  else r

theorem cancel_reservation_eq_map (db : DBState) (ref : String) :
    cancel_reservation db ref
      = { db with reservations := db.reservations.map (cancelRow ref) } := rfl

theorem cancelRow_idem (ref : String) (r : Reservation) :
    cancelRow ref (cancelRow ref r) = cancelRow ref r := by
  by_cases h : r.booking_reference = ref <;> simp [cancelRow, h]

theorem cancelRow_booking_reference (ref : String) (r : Reservation) :
    (cancelRow ref r).booking_reference = r.booking_reference := by
  by_cases h : r.booking_reference = ref <;> simp [cancelRow, h]

theorem hasReference_cancel (db : DBState) (ref ref1 : String) :
    hasReference (cancel_reservation db ref) ref1 = hasReference db ref1 := by
  simp [hasReference, cancel_reservation_eq_map, List.any_map, Function.comp_def,
    cancelRow_booking_reference]

/-- Every reference returned by the generation loop is fresh, and is the
first candidate of the stream (from index n on) that is fresh; the index m of
the successful draw is bounded only by the fuel of the unrolling, never by a
retry cap. -/
theorem genRefAux_spec (db : DBState) (σ : Nat → Fin 36) (fuel n : Nat)
    (r : String) (h : genRefAux db σ fuel n = some r) :
    hasReference db r = false ∧
    ∃ m, n ≤ m ∧ m < n + fuel ∧ r = candidate σ m ∧
      ∀ k, n ≤ k → k < m → hasReference db (candidate σ k) = true := by
  induction fuel generalizing n with
  | zero => simp [genRefAux] at h
  | succ fuel ih =>
    rw [genRefAux] at h
    by_cases hc : hasReference db (candidate σ n) = true
    · simp only [hc, if_true] at h
      obtain ⟨hfresh, m, hm1, hm2, hcand, hall⟩ := ih (n + 1) h
      refine ⟨hfresh, m, by omega, by omega, hcand, fun k hk1 hk2 => ?_⟩
      rcases Nat.eq_or_lt_of_le hk1 with heq | hlt
      · exact heq ▸ hc
      · exact hall k hlt hk2
    · simp only [Bool.not_eq_true] at hc
      simp [hc] at h
      subst h
      exact ⟨hc, n, Nat.le_refl n, by omega, rfl, fun k hk1 hk2 => absurd hk2 (by omega)⟩

/-- Anatomy of a successful create_reservation: the generated reference was
fresh, the FOREIGN KEY checks passed, and the new state is the old one with
exactly the new confirmed, paid row appended. -/
theorem create_reservation_success (db db1 : DBState) (σ : Nat → Fin 36)
    (fuel pid fid : Nat) (sid : Option Nat) (price : Int) (ref : String)
    (h : create_reservation db σ fuel pid fid sid price = some (some ref, db1)) :
    generate_booking_reference db σ fuel = some ref ∧
    hasReference db ref = false ∧
    passengerExists db pid = true ∧ flightExists db fid = true ∧
    seatFkOk db sid = true ∧
    db1 = { db with
              reservations := db.reservations ++ [bookedRow db pid fid sid ref price]
              next_reservation_id := db.next_reservation_id + 1 } := by
  rw [create_reservation] at h
  split at h
  · simp at h
  · rename_i ref0 hgen
    split at h
    · simp at h
    · rename_i n1 db1x hins
      simp only [Option.some.injEq, Prod.mk.injEq] at h
      obtain ⟨href, hdb⟩ := h
      subst href
      rw [insertReservation] at hins
      split at hins
      · rename_i hcond
        simp only [Option.some.injEq, Prod.mk.injEq] at hins
        simp only [Bool.and_eq_true, Bool.not_eq_true'] at hcond
        obtain ⟨⟨⟨hp, hf⟩, hs⟩, hfresh⟩ := hcond
        refine ⟨hgen, hfresh, hp, hf, hs, ?_⟩
        rw [← hdb, ← hins.2]
      · simp at hins

theorem filter_ref_of_fresh (db : DBState) (ref : String)
    (h : hasReference db ref = false) :
    db.reservations.filter (fun r => decide (r.booking_reference = ref)) = [] := by
  rw [List.filter_eq_nil_iff]
  intro r hr
  simp only [hasReference, List.any_eq_false] at h
  exact h r hr

/-- When every candidate the stream can produce collides with the store, the
generation loop never returns, whatever the fuel of the unrolling: this is
the `while True` loop running forever. -/
theorem genRefAux_diverges (db : DBState) (σ : Nat → Fin 36)
    (hall : ∀ m, hasReference db (candidate σ m) = true) :
    ∀ fuel n, genRefAux db σ fuel n = none := by
  intro fuel
  induction fuel with
  | zero => intro n; rfl
  | succ fuel ih =>
    intro n
    rw [genRefAux]
    simp only [hall n, if_true]
    exact ih (n + 1)

/-- The state after the double booking of C1's witness. -/
def dbHeld1 : DBState :=
  { dbHeld with
      reservations := dbHeld.reservations ++ [bookedRow dbHeld 1 1 (some 1) "BBBBBBBB" 350]
      next_reservation_id := 3 }

/-- C1: in dbHeld, seat 1 of flight 1 is already held by a live (confirmed)
reservation, yet create_reservation for the very same seat succeeds and the
resulting store carries two live reservations for (flight 1, seat 1): the
claimed SeatUnavailableError does not occur and a second live reservation is
created. -/
theorem C1_counterexample :
    seatHeld dbHeld 1 1 = true ∧
    ((create_reservation dbHeld σB 1 1 1 (some 1) 350).map
      fun x => (x.1, (liveOn x.2 1 1).length)) = some (some "BBBBBBBB", 2) := by decide

/-- C1 (amended): create_reservation performs no seat-availability check —
whenever the reference loop terminates and the INSERT's foreign-key and
reference-uniqueness checks pass, the new confirmed reservation is inserted
even though the seat is already held by a live reservation, leaving at least
two live reservations on the same (flight, seat) pair. -/
theorem C1_no_double_booking_amended (db db1 : DBState) (σ : Nat → Fin 36)
    (fuel pid fid sid : Nat) (price : Int) (ref : String)
    (hheld : seatHeld db fid sid = true)
    (hrun : create_reservation db σ fuel pid fid (some sid) price
      = some (some ref, db1)) :
    2 ≤ (liveOn db1 fid sid).length := by
  obtain ⟨-, -, -, -, -, hdb1⟩ :=
    create_reservation_success db db1 σ fuel pid fid (some sid) price ref hrun
  subst hdb1
  have hfilter :
      liveOn { db with
                 reservations :=
                   db.reservations ++ [bookedRow db pid fid (some sid) ref price]
                 next_reservation_id := db.next_reservation_id + 1 } fid sid
        = liveOn db fid sid ++ [bookedRow db pid fid (some sid) ref price] := by
    simp [liveOn, List.filter_append, bookedRow, liveStatus]
  rw [hfilter, List.length_append]
  simp only [List.length_singleton]
  have hpos : 1 ≤ (liveOn db fid sid).length := by
    rw [seatHeld, Bool.not_eq_true'] at hheld
    rcases hne : liveOn db fid sid with - | ⟨a, l⟩
    · rw [hne] at hheld; simp at hheld
    · simp
  omega

/-- C1 witness: the amended statement instantiated at the concrete held
state. -/
theorem C1_witness : 2 ≤ (liveOn dbHeld1 1 1).length :=
  C1_no_double_booking_amended dbHeld dbHeld1 σB 1 1 1 1 350 "BBBBBBBB"
    (by decide) (by decide)

/-- C2: with the stored reference "AAAAAAAA" colliding with each of the first
25 random candidates, the loop is still running after 25 iterations — well
past the claimed cap of about 20 — and at iteration 26 it succeeds, returning
a fresh reference instead of failing with ReferenceExhaustedError. -/
theorem C2_counterexample :
    generate_booking_reference dbHeld σlate 25 = none ∧
    generate_booking_reference dbHeld σlate 26 = some "BBBBBBBB" := by decide

/-- C2 (amended): generate_booking_reference is an unbounded verify loop with
no retry ceiling and no ReferenceExhaustedError: whenever it returns, the
value is the first randomly drawn candidate absent from the Reservation
store, reached after arbitrarily many colliding draws (bounded only by the
fuel of the unrolling, not by any cap in the code); while every draw keeps
colliding the loop keeps running. -/
theorem C2_unbounded_generation_amended (db : DBState) (σ : Nat → Fin 36)
    (fuel : Nat) (r : String)
    (h : generate_booking_reference db σ fuel = some r) :
    hasReference db r = false ∧
    ∃ m, m < fuel ∧ r = candidate σ m ∧
      ∀ k, k < m → hasReference db (candidate σ k) = true := by
  obtain ⟨hfresh, m, hm1, hm2, hcand, hall⟩ := genRefAux_spec db σ fuel 0 r h
  exact ⟨hfresh, m, by omega, hcand, fun k hk => hall k (Nat.zero_le k) hk⟩

/-- C2 witness: the amended statement at the concrete colliding stream. -/
theorem C2_witness :
    hasReference dbHeld "BBBBBBBB" = false ∧
    ∃ m, m < 26 ∧ "BBBBBBBB" = candidate σlate m ∧
      ∀ k, k < m → hasReference dbHeld (candidate σlate k) = true :=
  C2_unbounded_generation_amended dbHeld σlate 26 "BBBBBBBB" (by decide)

/-- C6: cancelling the reference "ZZZZZZZZ", absent from dbHeld, returns the
state unchanged and reports nothing: the operation silently succeeds where
the claim requires a NotFoundError. -/
theorem C6_counterexample :
    hasReference dbHeld "ZZZZZZZZ" = false ∧
    cancel_reservation dbHeld "ZZZZZZZZ" = dbHeld := by decide

/-- C6 (amended): cancelling a booking reference absent from the store is a
silent no-op: the UPDATE matches zero rows, the state is returned unchanged
and no NotFoundError (or any other error) is reported. -/
theorem C6_unknown_reference_amended (db : DBState) (ref : String)
    (habs : hasReference db ref = false) :
    cancel_reservation db ref = db := by
  rw [cancel_reservation_eq_map]
  have hall : ∀ r ∈ db.reservations, cancelRow ref r = r := by
    intro r hr
    have hne : ¬(r.booking_reference = ref) := by
      intro hcontra
      have : hasReference db ref = true := by
        simp only [hasReference, List.any_eq_true]
        exact ⟨r, hr, by simp [hcontra]⟩
      rw [this] at habs
      exact Bool.noConfusion habs
    simp [cancelRow, hne]
  rw [(List.map_congr_left hall).trans (List.map_id _)]

/-- C6 witness: the amended statement at a concrete absent reference. -/
theorem C6_witness : cancel_reservation dbBase "CCCCCCCC" = dbBase :=
  C6_unknown_reference_amended dbBase "CCCCCCCC" (by decide)

/-- A completed reservation whose payment is still pending. -/
def resDone : Reservation :=
  { resConfirmed with status := ResStatus.completed,
                      payment_status := PayStatus.pending }

def dbDone : DBState :=
  { dbBase with reservations := [resDone], next_reservation_id := 2 }

/-- C7: cancelling a reservation in terminal status 'completed' is not a
no-op — the row is rewritten to status 'cancelled' — and its 'pending'
payment is marked 'refunded' even though it was never paid. -/
theorem C7_counterexample :
    resDone.status = ResStatus.completed ∧
    resDone.payment_status = PayStatus.pending ∧
    dbDone.reservations = [resDone] ∧
    (cancel_reservation dbDone "AAAAAAAA").reservations =
      [{ resDone with status := ResStatus.cancelled,
                      payment_status := PayStatus.refunded }] := by decide

/-- C7 (amended): cancel_reservation checks no transition legality — every
row carrying the reference, whatever its current lifecycle status (including
the terminal 'completed') or payment status (including 'pending'), is
rewritten to status 'cancelled' with payment_status 'refunded'; rows without
the reference and all other tables are untouched, the row count is preserved
and no row is deleted.  (The UI only offers cancellation for 'confirmed'
reservations with a future departure; the operation itself enforces
nothing.) -/
theorem C7_cancel_unconditional_amended (db : DBState) (ref : String) (i : Nat) :
    (cancel_reservation db ref).reservations.length = db.reservations.length ∧
    (cancel_reservation db ref).reservations[i]? = (db.reservations[i]?).map
      (fun r => if r.booking_reference = ref
        then { r with status := ResStatus.cancelled,
                      payment_status := PayStatus.refunded }
        else r) ∧
    (cancel_reservation db ref).airports = db.airports ∧
    (cancel_reservation db ref).flights = db.flights ∧
    (cancel_reservation db ref).passengers = db.passengers ∧
    (cancel_reservation db ref).seats = db.seats := by
  refine ⟨?_, ?_, rfl, rfl, rfl, rfl⟩
  · simp [cancel_reservation]
  · simp [cancel_reservation, List.getElem?_map]

/-- A reservation holding seat 1 of flight 1 whose passenger has checked
in. -/
def resChecked : Reservation :=
  { resConfirmed with status := ResStatus.checked_in }

def dbChecked : DBState :=
  { dbBase with reservations := [resChecked], next_reservation_id := 2 }

/-- C4: seat 1 of flight 1 is referenced by a checked_in reservation — a live
status per the spec — yet get_available_seats still reports it available,
because the SQL only excludes seats of reservations in status 'confirmed'. -/
theorem C4_counterexample :
    dbChecked.reservations = [resChecked] ∧
    resChecked.status = ResStatus.checked_in ∧
    resChecked.flight_id = 1 ∧
    resChecked.seat_id = some seat1.seat_id ∧
    seat1 ∈ get_available_seats dbChecked 1 := by decide

/-- Membership characterization of get_available_seats, read off the SQL: a
seat of the flight's aircraft not referenced by any reservation in status
'confirmed' on that flight. -/
theorem mem_get_available_seats (db : DBState) (fid : Nat) (s : Seat) :
    s ∈ get_available_seats db fid ↔
      s ∈ db.seats ∧
      (∃ f ∈ db.flights, f.flight_id = fid ∧ s.aircraft_id = f.aircraft_id) ∧
      ¬ ∃ r ∈ db.reservations, r.flight_id = fid ∧
          r.status = ResStatus.confirmed ∧ r.seat_id = some s.seat_id := by
  simp [get_available_seats, List.mem_filter, List.any_eq_true, and_assoc]

/-- C4 (amended): get_available_seats returns exactly the seats of the
flight's aircraft minus the seats referenced by a reservation in status
'confirmed' on that flight — reservations in status checked_in or completed
do not block a seat. -/
theorem C4_availability_amended (db : DBState) (fid : Nat) (s : Seat) :
    s ∈ get_available_seats db fid ↔
      s ∈ db.seats ∧
      (∃ f ∈ db.flights, f.flight_id = fid ∧ s.aircraft_id = f.aircraft_id) ∧
      ¬ ∃ r ∈ db.reservations, r.flight_id = fid ∧
          r.status = ResStatus.confirmed ∧ r.seat_id = some s.seat_id :=
  mem_get_available_seats db fid s

/-- Rewrite every flight's status field with the function g, leaving all
other data untouched. -/
def mapFlightStatus (g : Nat → FlightStatus) (db : DBState) : DBState :=
  { db with flights := db.flights.map fun f => { f with status := g f.flight_id } }

theorem passengerExists_mapFlightStatus (g : Nat → FlightStatus) (db : DBState)
    (pid : Nat) : passengerExists (mapFlightStatus g db) pid = passengerExists db pid := rfl

theorem hasReference_mapFlightStatus (g : Nat → FlightStatus) (db : DBState)
    (ref : String) : hasReference (mapFlightStatus g db) ref = hasReference db ref := rfl

theorem seatFkOk_mapFlightStatus (g : Nat → FlightStatus) (db : DBState)
    (sid : Option Nat) : seatFkOk (mapFlightStatus g db) sid = seatFkOk db sid := by
  cases sid <;> rfl

theorem flightExists_mapFlightStatus (g : Nat → FlightStatus) (db : DBState)
    (fid : Nat) : flightExists (mapFlightStatus g db) fid = flightExists db fid := by
  simp [flightExists, mapFlightStatus, List.any_map, Function.comp_def]

theorem genRefAux_mapFlightStatus (g : Nat → FlightStatus) (db : DBState)
    (σ : Nat → Fin 36) : ∀ fuel n,
    genRefAux (mapFlightStatus g db) σ fuel n = genRefAux db σ fuel n := by
  intro fuel
  induction fuel with
  | zero => intro n; rfl
  | succ fuel ih =>
    intro n
    by_cases h : hasReference db (candidate σ n) = true
    · simp only [genRefAux, hasReference_mapFlightStatus, h, if_true]
      exact ih (n + 1)
    · simp only [Bool.not_eq_true] at h
      simp [genRefAux, hasReference_mapFlightStatus, h]

theorem insertReservation_mapFlightStatus (g : Nat → FlightStatus) (db : DBState)
    (pid fid : Nat) (sid : Option Nat) (ref : String) (price : Int) :
    insertReservation (mapFlightStatus g db) pid fid sid ref price
      = (insertReservation db pid fid sid ref price).map
          (fun x => (x.1, mapFlightStatus g x.2)) := by
  simp only [insertReservation, passengerExists_mapFlightStatus,
    flightExists_mapFlightStatus, seatFkOk_mapFlightStatus,
    hasReference_mapFlightStatus]
  by_cases h : (passengerExists db pid && flightExists db fid && seatFkOk db sid
      && !hasReference db ref) = true
  · rw [if_pos h, if_pos h]; rfl
  · rw [if_neg h, if_neg h]; rfl

/-- A copy of flight 1 that operations staff have cancelled. -/
def flightCancelled : Flight := { flight1 with status := FlightStatus.cancelled }

def dbCF : DBState := { dbBase with flights := [flightCancelled] }

def dbNoFlight : DBState := { dbBase with flights := [] }

/-- C5: flight 1 is in status 'cancelled', not 'scheduled', yet
create_reservation succeeds and a reservation row is created for it — no
FlightNotBookableError and no status check anywhere. -/
theorem C5_counterexample :
    dbCF.flights = [flightCancelled] ∧
    flightCancelled.status = FlightStatus.cancelled ∧
    ((create_reservation dbCF σB 1 1 1 (some 1) 350).map
      fun x => (x.1, x.2.reservations.length)) = some (some "BBBBBBBB", 1) := by decide

/-- C5 (amended): when the referenced flight does not exist the booking does
fail — the INSERT's foreign key rejects it, `execute_update` returns None and
no reservation is created — but the flight's status is never examined: the
outcome of create_reservation is unchanged under any rewriting of the flight
statuses, so reservations are created for flights in any status and no
FlightNotBookableError exists. -/
theorem C5_flight_status_amended (db : DBState) (σ : Nat → Fin 36)
    (fuel pid fid : Nat) (sid : Option Nat) (price : Int)
    (g : Nat → FlightStatus) :
    (flightExists db fid = false →
      create_reservation db σ fuel pid fid sid price = none ∨
      create_reservation db σ fuel pid fid sid price = some (none, db)) ∧
    create_reservation (mapFlightStatus g db) σ fuel pid fid sid price
      = (create_reservation db σ fuel pid fid sid price).map
          (fun x => (x.1, mapFlightStatus g x.2)) := by
  constructor
  · intro hnf
    rw [create_reservation]
    cases hgen : generate_booking_reference db σ fuel with
    | none => left; rfl
    | some ref =>
      right
      have hins : insertReservation db pid fid sid ref price = none := by
        rw [insertReservation]
        simp [hnf]
      dsimp only
      rw [hins]
  · rw [create_reservation, create_reservation, generate_booking_reference,
      generate_booking_reference, genRefAux_mapFlightStatus]
    cases hgen : genRefAux db σ fuel 0 with
    | none => rfl
    | some ref =>
      dsimp only
      rw [insertReservation_mapFlightStatus]
      cases hins : insertReservation db pid fid sid ref price with
      | none => rfl
      | some pr =>
        obtain ⟨a, b⟩ := pr
        rfl

/-- C5 witness: booking against a state with no flights fails without
creating anything. -/
theorem C5_witness :
    create_reservation dbNoFlight σB 1 1 1 (some 1) 350 = none ∨
    create_reservation dbNoFlight σB 1 1 1 (some 1) 350 = some (none, dbNoFlight) :=
  (C5_flight_status_amended dbNoFlight σB 1 1 1 (some 1) 350
    (fun _ => FlightStatus.scheduled)).1 (by decide)

/-- Cancelling twice is the same as cancelling once: the UPDATE writes
constants, so re-applying it to its own output changes nothing. -/
theorem cancel_reservation_idem (db : DBState) (ref : String) :
    cancel_reservation (cancel_reservation db ref) ref = cancel_reservation db ref := by
  show { db with
           reservations :=
             (db.reservations.map (cancelRow ref)).map (cancelRow ref) }
       = { db with reservations := db.reservations.map (cancelRow ref) }
  rw [List.map_map]
  congr 1
  exact List.map_congr_left fun r _ => cancelRow_idem ref r

/-- A second confirmed reservation holding the same seat 1 of flight 1 under
a different reference — a double booking, reachable per C1. -/
def resB2 : Reservation :=
  { resConfirmed with reservation_id := 2, booking_reference := "BBBBBBBB" }

def dbDouble : DBState :=
  { dbBase with reservations := [resConfirmed, resB2], next_reservation_id := 3 }

/-- C8: the reference "AAAAAAAA" is present in dbDouble and its reservation
holds seat 1, but after cancelling it — once or twice — the seat is still not
available, because the other confirmed reservation "BBBBBBBB" (a double
booking the code permits) keeps holding the pair. -/
theorem C8_counterexample :
    hasReference dbDouble "AAAAAAAA" = true ∧
    (dbDouble.reservations.filter fun r =>
        decide (r.booking_reference = "AAAAAAAA")).map (fun r => r.seat_id)
      = [some seat1.seat_id] ∧
    seat1 ∉ get_available_seats (cancel_reservation dbDouble "AAAAAAAA") 1 ∧
    seat1 ∉ get_available_seats
      (cancel_reservation (cancel_reservation dbDouble "AAAAAAAA") "AAAAAAAA") 1 := by
  decide

/-- C8 (amended): cancelling twice in sequence always yields the same final
state as cancelling once — the second call on an already-cancelled
reservation is a no-op success, not an error.  The cancelled reservation's
seat is then reported available provided the seat belongs to the flight's
aircraft catalog and every confirmed reservation on that (flight, seat) pair
carries the cancelled reference; when another confirmed reservation (a
double booking) holds the same pair, the seat stays unavailable. -/
theorem C8_cancel_idempotent_amended (db : DBState) (ref : String)
    (r : Reservation) (s : Seat) (f : Flight)
    (_hr : r ∈ db.reservations) (_href : r.booking_reference = ref)
    (_hsid : r.seat_id = some s.seat_id) (hs : s ∈ db.seats)
    (hf : f ∈ db.flights) (hfid : f.flight_id = r.flight_id)
    (hair : s.aircraft_id = f.aircraft_id)
    (hother : ∀ r2 ∈ db.reservations, r2.flight_id = r.flight_id →
      r2.seat_id = some s.seat_id → r2.status = ResStatus.confirmed →
      r2.booking_reference = ref) :
    cancel_reservation (cancel_reservation db ref) ref = cancel_reservation db ref ∧
    s ∈ get_available_seats (cancel_reservation db ref) r.flight_id := by
  refine ⟨cancel_reservation_idem db ref, ?_⟩
  rw [mem_get_available_seats]
  refine ⟨hs, ⟨f, hf, hfid, hair⟩, ?_⟩
  rintro ⟨r2c, hr2c, hline⟩
  rw [cancel_reservation_eq_map] at hr2c
  simp only [List.mem_map] at hr2c
  obtain ⟨r2, hr2, hmap⟩ := hr2c
  by_cases hb : r2.booking_reference = ref
  · have : r2c.status = ResStatus.cancelled := by
      rw [← hmap]; simp [cancelRow, hb]
    rw [this] at hline
    exact ResStatus.noConfusion hline.2.1
  · have hid : r2c = r2 := by rw [← hmap]; simp [cancelRow, hb]
    subst hid
    exact hb (hother r2c hr2 hline.1 hline.2.2 hline.2.1)

/-- C8 witness: the amended statement at the singly-held concrete state. -/
theorem C8_witness :
    cancel_reservation (cancel_reservation dbHeld "AAAAAAAA") "AAAAAAAA"
      = cancel_reservation dbHeld "AAAAAAAA" ∧
    seat1 ∈ get_available_seats (cancel_reservation dbHeld "AAAAAAAA")
      resConfirmed.flight_id :=
  C8_cancel_idempotent_amended dbHeld "AAAAAAAA" resConfirmed seat1 flight1
    (by decide) (by decide) (by decide) (by decide) (by decide) (by decide)
    (by decide) (by decide)

/-- The operations of `database.py` that write to the store, for reasoning
about arbitrary interleavings between two bookings. -/
inductive Op where
  | book (σ : Nat → Fin 36) (fuel pid fid : Nat) (sid : Option Nat) (price : Int)
  | cancel (ref : String)
  | newPassenger (first_name last_name email phone dob passport natl : String)

/-- Apply one operation, keeping only the resulting state (a booking whose
reference loop has not terminated observably changes nothing yet). -/
def applyOp (db : DBState) : Op → DBState
  | Op.book σ fuel pid fid sid price =>
    match create_reservation db σ fuel pid fid sid price with
    | none => db
    | some (_, db1) => db1
  | Op.cancel ref => cancel_reservation db ref
  | Op.newPassenger a b c d e f g => (create_passenger db a b c d e f g).2

def runTrace (db : DBState) (ops : List Op) : DBState := ops.foldl applyOp db

/-- Whatever a booking attempt produces, the resulting state is either
unchanged or the old one with the new row appended. -/
theorem create_reservation_state (db db1 : DBState) (σ : Nat → Fin 36)
    (fuel pid fid : Nat) (sid : Option Nat) (price : Int) (o : Option String)
    (h : create_reservation db σ fuel pid fid sid price = some (o, db1)) :
    db1 = db ∨ ∃ ref2, o = some ref2 ∧
      db1 = { db with
                reservations := db.reservations ++ [bookedRow db pid fid sid ref2 price]
                next_reservation_id := db.next_reservation_id + 1 } := by
  rw [create_reservation] at h
  split at h
  · simp at h
  · rename_i ref0 hgen
    split at h
    · simp only [Option.some.injEq, Prod.mk.injEq] at h
      exact Or.inl h.2.symm
    · rename_i n1 dbx hins
      simp only [Option.some.injEq, Prod.mk.injEq] at h
      refine Or.inr ⟨ref0, h.1.symm, ?_⟩
      rw [insertReservation] at hins
      split at hins
      · simp only [Option.some.injEq, Prod.mk.injEq] at hins
        rw [← h.2, ← hins.2]
      · simp at hins

/-- create_passenger never touches the Reservations table. -/
theorem create_passenger_reservations (db : DBState)
    (a b c d e f g : String) :
    ((create_passenger db a b c d e f g).2).reservations = db.reservations := by
  rw [create_passenger]
  cases hfind : db.passengers.find? fun p => decide (p.email = c) with
  | none =>
    dsimp only
    by_cases hp : passportTaken db f = true
    · rw [if_pos hp]
    · rw [if_neg hp]
  | some p => rfl

/-- A booking reference present in the store stays present across every write
operation: bookings only append rows, cancellation rewrites statuses but
never the reference column, and passenger creation does not touch
reservations. -/
theorem hasReference_applyOp (db : DBState) (op : Op) (ref : String)
    (h : hasReference db ref = true) : hasReference (applyOp db op) ref = true := by
  cases op with
  | book σ fuel pid fid sid price =>
    rw [applyOp]
    cases hc : create_reservation db σ fuel pid fid sid price with
    | none => exact h
    | some pr =>
      obtain ⟨o, db1⟩ := pr
      dsimp only
      rcases create_reservation_state db db1 σ fuel pid fid sid price o hc with
        hdb | ⟨ref2, -, hdb⟩
      · rw [hdb]; exact h
      · rw [hdb]
        simp only [hasReference, List.any_append, Bool.or_eq_true]
        exact Or.inl h
  | cancel ref2 => rw [applyOp, hasReference_cancel]; exact h
  | newPassenger a b c d e f g =>
    rw [applyOp]
    simp only [hasReference, create_passenger_reservations]
    exact h

theorem hasReference_runTrace (db : DBState) (ops : List Op) (ref : String)
    (h : hasReference db ref = true) :
    hasReference (runTrace db ops) ref = true := by
  induction ops generalizing db with
  | nil => exact h
  | cons op ops ih => exact ih (applyOp db op) (hasReference_applyOp db op ref h)

theorem alphaChar_mem : ∀ i : Fin 36, alphaChar i ∈ refAlphabet := by decide

theorem candidate_length (σ : Nat → Fin 36) (n : Nat) :
    (candidate σ n).length = 8 := by
  simp [candidate, String.length]

theorem candidate_chars (σ : Nat → Fin 36) (n : Nat) :
    ∀ c ∈ (candidate σ n).data, c ∈ refAlphabet := by
  intro c hc
  simp only [candidate, List.mem_map] at hc
  obtain ⟨j, -, hj⟩ := hc
  exact hj ▸ alphaChar_mem _

/-- The freshly booked row makes its reference present in the new state. -/
theorem hasReference_after_book (db : DBState) (pid fid : Nat)
    (sid : Option Nat) (ref : String) (price : Int) :
    hasReference
      { db with
          reservations := db.reservations ++ [bookedRow db pid fid sid ref price]
          next_reservation_id := db.next_reservation_id + 1 } ref = true := by
  simp [hasReference, List.any_append, bookedRow]

/-- C3: every reference a successful booking returns is an 8-character string
over uppercase letters and digits, absent from the Reservation store at the
time it was generated; and a later successful booking — after any sequence of
further bookings, cancellations and passenger creations — returns a different
reference, because the first one is still stored and the generator only
returns absent candidates. -/
theorem C3_reference_format_unique (db db1 db2 : DBState) (ops : List Op)
    (σ1 σ2 : Nat → Fin 36) (fuel1 fuel2 pid1 fid1 pid2 fid2 : Nat)
    (sid1 sid2 : Option Nat) (price1 price2 : Int) (ref1 ref2 : String)
    (h1 : create_reservation db σ1 fuel1 pid1 fid1 sid1 price1
      = some (some ref1, db1))
    (h2 : create_reservation (runTrace db1 ops) σ2 fuel2 pid2 fid2 sid2 price2
      = some (some ref2, db2)) :
    ref1.length = 8 ∧ (∀ c ∈ ref1.data, c ∈ refAlphabet) ∧
    hasReference db ref1 = false ∧ ref1 ≠ ref2 := by
  obtain ⟨hgen1, hfresh1, -, -, -, hdb1⟩ :=
    create_reservation_success db db1 σ1 fuel1 pid1 fid1 sid1 price1 ref1 h1
  obtain ⟨-, m, -, -, hcand, -⟩ := genRefAux_spec db σ1 fuel1 0 ref1 hgen1
  obtain ⟨-, hfresh2, -, -, -, -⟩ :=
    create_reservation_success (runTrace db1 ops) db2 σ2 fuel2 pid2 fid2 sid2
      price2 ref2 h2
  refine ⟨hcand ▸ candidate_length σ1 m, hcand ▸ candidate_chars σ1 m, hfresh1, ?_⟩
  intro heq
  have hin1 : hasReference db1 ref1 = true := by
    rw [hdb1]; exact hasReference_after_book db pid1 fid1 sid1 ref1 price1
  have hin : hasReference (runTrace db1 ops) ref1 = true :=
    hasReference_runTrace db1 ops ref1 hin1
  rw [heq, hfresh2] at hin
  exact Bool.noConfusion hin

/-- The row created by the first booking of C3's witness, and the states
after each step of its two-booking trace. -/
def rowB : Reservation := bookedRow dbBase 1 1 (some 1) "BBBBBBBB" 350

def dbTrace1 : DBState :=
  { dbBase with reservations := [rowB], next_reservation_id := 2 }

/-- A draw stream that always picks the letter A. -/
def σA : Nat → Fin 36 := fun _ => ⟨0, by omega⟩

def dbTrace2 : DBState :=
  { dbBase with
      reservations :=
        [{ rowB with status := ResStatus.cancelled,
                     payment_status := PayStatus.refunded },
         { reservation_id := 2, passenger_id := 1, flight_id := 1,
           seat_id := some 2, booking_reference := "AAAAAAAA",
           ticket_price := 350, status := ResStatus.confirmed,
           payment_status := PayStatus.paid }]
      next_reservation_id := 3 }

/-- C3 witness: two concrete successful bookings separated by a cancellation
of the first, applied to the theorem. -/
theorem C3_witness :
    ("BBBBBBBB" : String).length = 8 ∧
    (∀ c ∈ ("BBBBBBBB" : String).data, c ∈ refAlphabet) ∧
    hasReference dbBase "BBBBBBBB" = false ∧
    ("BBBBBBBB" : String) ≠ "AAAAAAAA" :=
  C3_reference_format_unique dbBase dbTrace1 dbTrace2 [Op.cancel "BBBBBBBB"]
    σB σA 1 1 1 1 1 1 (some 1) (some 2) 350 350 "BBBBBBBB" "AAAAAAAA"
    (by decide) (by decide)

theorem find?_of_any {α} (l : List α) (p : α → Bool) (h : l.any p = true) :
    ∃ x, l.find? p = some x := by
  rw [List.any_eq_true] at h
  obtain ⟨x, hx, hpx⟩ := h
  exact Option.isSome_iff_exists.mp (List.find?_isSome.mpr ⟨x, hx, hpx⟩)

/-- C9: a successful booking round-trips through lookup — in the resulting
state, get_reservation_by_reference on the returned reference yields exactly
the new reservation, whose seat, flight and ticket price equal the booking
inputs, with status 'confirmed' and payment status 'paid'.  The hypothesis
hfk is the referential integrity the DDL's FOREIGN KEYs maintain on the
Flights table: each flight's airports exist, so the lookup's airport joins
succeed. -/
theorem C9_roundtrip (db db1 : DBState) (σ : Nat → Fin 36) (fuel pid fid : Nat)
    (sid : Option Nat) (price : Int) (ref : String)
    (h : create_reservation db σ fuel pid fid sid price = some (some ref, db1))
    (hfk : ∀ f ∈ db.flights,
      (∃ a ∈ db.airports, a.airport_id = f.origin_airport_id) ∧
      (∃ a ∈ db.airports, a.airport_id = f.destination_airport_id)) :
    ∃ j, get_reservation_by_reference db1 ref = some j ∧
      j.reservation.seat_id = sid ∧ j.reservation.flight_id = fid ∧
      j.reservation.ticket_price = price ∧
      j.reservation.status = ResStatus.confirmed ∧
      j.reservation.payment_status = PayStatus.paid := by
  obtain ⟨hgen, hfresh, hp, hf, hs, hdb1⟩ :=
    create_reservation_success db db1 σ fuel pid fid sid price ref h
  obtain ⟨p0, hp0⟩ := find?_of_any db.passengers _ hp
  obtain ⟨f0, hf0⟩ := find?_of_any db.flights _ hf
  have hf0mem : f0 ∈ db.flights := List.mem_of_find?_eq_some hf0
  obtain ⟨⟨ao, haom, haoi⟩, ⟨ad, hadm, hadi⟩⟩ := hfk f0 hf0mem
  obtain ⟨ao0, hao0⟩ := find?_of_any db.airports
    (fun a => decide (a.airport_id = f0.origin_airport_id))
    (by rw [List.any_eq_true]; exact ⟨ao, haom, by simp [haoi]⟩)
  obtain ⟨ad0, had0⟩ := find?_of_any db.airports
    (fun a => decide (a.airport_id = f0.destination_airport_id))
    (by rw [List.any_eq_true]; exact ⟨ad, hadm, by simp [hadi]⟩)
  subst hdb1
  rw [get_reservation_by_reference]
  have hfilt :
      ({ db with
           reservations := db.reservations ++ [bookedRow db pid fid sid ref price]
           next_reservation_id := db.next_reservation_id + 1 } :
        DBState).reservations.filter (fun r => decide (r.booking_reference = ref))
        = [bookedRow db pid fid sid ref price] := by
    dsimp only
    rw [List.filter_append, filter_ref_of_fresh db ref hfresh]
    simp [bookedRow]
  rw [hfilt]
  have hjoin : joinRow
      { db with
          reservations := db.reservations ++ [bookedRow db pid fid sid ref price]
          next_reservation_id := db.next_reservation_id + 1 }
      (bookedRow db pid fid sid ref price)
      = some { reservation := bookedRow db pid fid sid ref price,
               passenger := p0, flight := f0, origin := ao0, destination := ad0,
               seat := sid.bind fun sid2 =>
                 db.seats.find? fun s => decide (s.seat_id = sid2) } := by
    rw [joinRow]
    dsimp only [bookedRow]
    rw [hp0]
    dsimp only
    rw [hf0]
    dsimp only
    rw [hao0]
    dsimp only
    rw [had0]
  rw [List.filterMap_cons]
  rw [hjoin]
  exact ⟨_, rfl, rfl, rfl, rfl, rfl, rfl⟩

/-- C9 witness: the concrete booking of seat 1 on flight 1 looked up again. -/
theorem C9_witness :
    ∃ j, get_reservation_by_reference dbTrace1 "BBBBBBBB" = some j ∧
      j.reservation.seat_id = some 1 ∧ j.reservation.flight_id = 1 ∧
      j.reservation.ticket_price = 350 ∧
      j.reservation.status = ResStatus.confirmed ∧
      j.reservation.payment_status = PayStatus.paid :=
  C9_roundtrip dbBase dbTrace1 σB 1 1 1 (some 1) 350 "BBBBBBBB"
    (by decide) (by decide)

/-- C10: when a Passengers row with the given email already exists,
create_passenger returns that row's passenger_id and the store is unchanged —
the name, phone, date of birth, passport and nationality arguments are
arbitrary here and do not reach the store, so the existing record is not
updated. -/
theorem C10_passenger_dedup (db : DBState)
    (fn ln email phone dob passport natl : String) (p : Passenger)
    (hfind : db.passengers.find? (fun q => decide (q.email = email)) = some p) :
    create_passenger db fn ln email phone dob passport natl
      = (some p.passenger_id, db) := by
  rw [create_passenger, hfind]

/-- C10 witness: re-registering passenger 1's email with entirely different
personal data returns id 1 and leaves the store as it was. -/
theorem C10_witness :
    create_passenger dbBase "Someone" "Else" "john.doe@email.com" "000"
      "2000-01-01" "X999" "UK" = (some 1, dbBase) :=
  C10_passenger_dedup dbBase "Someone" "Else" "john.doe@email.com" "000"
    "2000-01-01" "X999" "UK" passenger1 (by decide)

end AirlineDB
